import Mathlib

/-!
# CanProbe adapter protocol layer: a shallow embedding

This file embeds the protocol layer of the CanProbe host driver
(`adaptor-core/src/adaptor.rs`, `adaptor-core/src/lib.rs`,
`adaptor-common/src/lib.rs`) in Lean and settles the specification
claims about it.

The platform USB library (`rusb`) is represented by explicit oracles: each
fallible platform call is a field of a `World` record carrying its outcome,
and the driver functions are pure functions of the `World`.  Side effects on
the bus are reified as an operation trace (`Op`).
-/

deriving instance DecidableEq for Except

namespace CanProbe

/-! ## Shared constants (`adaptor-common/src/lib.rs`, `common/src/lib.rs`) -/

/-- `pub const VENDOR_ID: u16 = 0x69;` -/
def VENDOR_ID : Nat := 0x69

/-- `pub const CMD_PACKET_SIZE: usize = 16;` -/
def CMD_PACKET_SIZE : Nat := 16

/-- `UsbRequests` request codes (`#[repr(u8)]`, NOP = 0 and successors). -/
def UsbRequests.NOP : Nat := 0

/-- Request code of `UsbRequests::Settings`. -/
def UsbRequests.Settings : Nat := 1

/-- Request code of `UsbRequests::Reset`. -/
def UsbRequests.Reset : Nat := 2

/-- Request code of `UsbRequests::Run`. -/
def UsbRequests.Run : Nat := 3

/-- Request code of `UsbRequests::LedEnable`. -/
def UsbRequests.LedEnable : Nat := 4

/-- Request code of `UsbRequests::GetError`. -/
def UsbRequests.GetError : Nat := 5

/-! ## Data model (`adaptor-common/src/lib.rs`) -/

/-- `pub struct AdaptorSettings { rx_mask: u32, leds: bool, can_id: u32,
can_config: u32 }`.  The `u32` fields are carried as `Nat`; field values of
the running program always lie below `2 ^ 32`. -/
structure AdaptorSettings where
  rx_mask : Nat
  leds : Bool
  can_id : Nat
  can_config : Nat
deriving DecidableEq, Repr

/-- `impl Default for AdaptorSettings`: `{ rx_mask: 0, leds: true, can_id: 0,
can_config: 0 }`. -/
def AdaptorSettings.default : AdaptorSettings :=
  { rx_mask := 0, leds := true, can_id := 0, can_config := 0 }

/-- `pub struct CANFrame { id: u32, dlc: u8, data: [u8; 8], is_rtr: bool,
is_err: bool, is_ext: bool }`.  `data` is a list of byte values; a frame of
the running program has `data.length = 8`. -/
structure CANFrame where
  id : Nat
  dlc : Nat
  data : List Nat
  is_rtr : Bool
  is_err : Bool
  is_ext : Bool
deriving DecidableEq, Repr

/-- A `CANFrame` value that the Rust type system and the spec's dlc bound
admit: 32-bit id, dlc between 0 and 8, exactly 8 data bytes. -/
def CANFrame.valid (f : CANFrame) : Prop :=
  f.id < 2 ^ 32 ∧ f.dlc ≤ 8 ∧ f.data.length = 8 ∧ ∀ b ∈ f.data, b < 256

instance (f : CANFrame) : Decidable f.valid := by
  unfold CANFrame.valid; infer_instance

/-! ## Wire format

Modelled from the spec: the repository serializes settings and frames with
the `postcard` crate, whose version pin (the dependency manifest) is not
among the provided sources; spec section 6 fixes the encoding: a
deterministic, non-self-describing format, fields in declaration order with
no padding or tags, unsigned multi-byte integers as base-128 varints with
the least significant group first, `u8` as a single byte, fixed-size byte
arrays inline at full length, booleans as a single byte 0x00 or 0x01. -/

/-- Base-128 little-groups-first varint encoding, structurally recursive
on a fuel bound on the number of groups: with `n < 128 ^ (fuel + 1)` the
fuel never runs out and the encoding is canonical. -/
def varintEncodeAux : Nat → Nat → List Nat
  | 0, n => [n]
  | fuel + 1, n =>
    if n < 128 then [n]
    else (n % 128 + 128) :: varintEncodeAux fuel (n / 128)

/-- Base-128 little-groups-first varint encoding of an unsigned integer
(spec section 6): emit the low 7 bits with the continuation bit set while
the value exceeds one group.  `n` itself always bounds the group count. -/
def varintEncode (n : Nat) : List Nat := varintEncodeAux n n

/-- Varint decoding with a maximum number of groups (5 for a `u32`);
returns the value and the unconsumed tail. -/
def varintDecode : Nat → List Nat → Option (Nat × List Nat)
  | 0, _ => none
  | _ + 1, [] => none
  | fuel + 1, b :: rest =>
    if b < 128 then some (b, rest)
    else
      match varintDecode fuel rest with
      | some (v, r) => some (v * 128 + (b - 128), r)
      | none => none

/-- A boolean on the wire: one byte, 0x00 or 0x01. -/
def boolByte (b : Bool) : Nat := if b then 1 else 0

/-- Consume one byte (`u8` on the wire). -/
def takeByte : List Nat → Option (Nat × List Nat)
  | [] => none
  | b :: r => some (b, r)

/-- Consume a fixed-length run of bytes (a `[u8; N]` on the wire). -/
def takeN : Nat → List Nat → Option (List Nat × List Nat)
  | 0, r => some ([], r)
  | _ + 1, [] => none
  | n + 1, b :: r =>
    match takeN n r with
    | some (xs, rest) => some (b :: xs, rest)
    | none => none

/-- Consume one boolean byte; any byte other than 0 or 1 is malformed. -/
def takeBool : List Nat → Option (Bool × List Nat)
  | [] => none
  | 0 :: r => some (false, r)
  | 1 :: r => some (true, r)
  | _ => none

/-- Serialization of `AdaptorSettings` (fields in declaration order:
`rx_mask`, `leds`, `can_id`, `can_config`). -/
def serializeSettings (s : AdaptorSettings) : List Nat :=
  varintEncode s.rx_mask ++ boolByte s.leds ::
    (varintEncode s.can_id ++ varintEncode s.can_config)

/-- Serialization of a `CANFrame` (fields in declaration order: `id`,
`dlc`, `data`, `is_rtr`, `is_err`, `is_ext`). -/
def serializeFrame (f : CANFrame) : List Nat :=
  varintEncode f.id ++ f.dlc ::
    (f.data ++ [boolByte f.is_rtr, boolByte f.is_err, boolByte f.is_ext])

/-- Deserialization of a `CANFrame` from a byte buffer
(`postcard::take_from_bytes`): the decoded frame plus the unconsumed
tail, or `none` on malformed input. -/
def deserializeFrame (bytes : List Nat) : Option (CANFrame × List Nat) := do
  let (id, r1) ← varintDecode 5 bytes
  let (dlc, r2) ← takeByte r1
  let (data, r3) ← takeN 8 r2
  let (rtr, r4) ← takeBool r3
  let (err, r5) ← takeBool r4
  let (ext, r6) ← takeBool r5
  some (⟨id, dlc, data, rtr, err, ext⟩, r6)

/-! ## Device registry (`adaptor.rs` lines 13-47) -/

/-- `pub(crate) struct AdaptorInfo { version, pid, in_ep, out_ep, swo_ep }`. -/
structure AdaptorInfo where
  version : String
  pid : Nat
  in_ep : Nat
  out_ep : Nat
  swo_ep : Nat
deriving DecidableEq, Repr

/-- The single registry entry: `AdaptorInfo::new("V1", 0x69, 0x1, 0x81, 0x82)`. -/
def infoV1 : AdaptorInfo :=
  { version := "V1", pid := 0x69, in_ep := 0x1, out_ep := 0x81, swo_ep := 0x82 }

/-- The `VERSIONS` map, keyed by product id. -/
def VERSIONS : List (Nat × AdaptorInfo) := [(0x69, infoV1)]

/-! ## Errors and platform oracles -/

/-- An error reported by the platform USB library (`rusb::Error`);
the particular variants are irrelevant to the driver, which wraps them. -/
inductive UsbErr where
  | timeout
  | pipe
  | other
deriving DecidableEq, Repr

/-- `AdaptorError` (`adaptor-core/src/errors.rs`). -/
inductive AdaptorError where
  | RusbError (e : UsbErr)
  | SerdeError
  | NoDeviceError
  | NoEndpointError
  | ConnectionError
  | SettingsError
  | NotEnoughBytesSent
deriving DecidableEq, Repr

/-- A bus-visible operation performed by the driver, in order. -/
inductive Op where
  | claim
  | release
  | control (req : Nat) (payload : List Nat)
  | bulkOut (endpoint : Nat) (payload : List Nat)
deriving DecidableEq, Repr

/-- An enumerated USB device: the outcome of reading its descriptor
(`d.device_descriptor()`), as `(vendor_id, product_id)` when it succeeds. -/
structure Device where
  descriptor : Option (Nat × Nat)
deriving DecidableEq, Repr

/-- Outcomes of the platform calls `AdaptorHandle::new` makes, one field
per fallible call, in program order.  `config` is the active configuration
descriptor: interfaces, each a list of alternate-setting descriptors, each
a list of endpoint addresses. -/
structure World where
  devices : List Device
  openResult : Except UsbErr Unit
  config : Except UsbErr (List (List (List Nat)))
  claimResult : Except UsbErr Unit
  settingsWrite : Except UsbErr Nat

/-- `true` exactly on `Except.ok`. -/
def exceptIsOk : Except ε α → Bool
  | .ok _ => true
  | .error _ => false

/-! ## Device locator (`adaptor.rs` lines 77-99) -/

/-- The `filter` predicate of `AdaptorHandle::new`: descriptor readable,
vendor id equal to the constant, product id a key of `VERSIONS`. -/
def descQualifies : Option (Nat × Nat) → Bool
  | some (vid, pid) => vid == VENDOR_ID && (VERSIONS.lookup pid).isSome
  | none => false

/-- The `find_map` closure of `AdaptorHandle::new`: re-reads the
descriptor and re-checks the vendor id. -/
def findMapStep (d : Device) : Option Device :=
  match d.descriptor with
  | some (vid, _) => if vid == VENDOR_ID then some d else none
  | none => none

/-- The `filter` closure applied to a device. -/
def deviceQualifies (d : Device) : Bool := descQualifies d.descriptor

/-- The device-selection pipeline of `AdaptorHandle::new`:
`devices.filter(..).find_map(..).map_or(Err(NoDeviceError), Ok)`. -/
def locate (devices : List Device) : Except AdaptorError Device :=
  match (devices.filter deviceQualifies).findSome? findMapStep with
  | some d => .ok d
  | none => .error .NoDeviceError

/-- Spec-side locator (section 4.1, for the refinement claim): the first
enumerated device whose descriptor reads successfully with the fixed vendor
id and a registry product id; `NoDeviceError` when none qualifies. -/
def locateSpec (devices : List Device) : Except AdaptorError Device :=
  match devices.find? deviceQualifies with
  | some d => .ok d
  | none => .error .NoDeviceError

/-! ## Endpoint validation (`adaptor.rs` lines 112-134) -/

/-- One iteration of the endpoint loop, carrying
`(has_in_ep, has_out_ep)`. -/
def epFold (info : AdaptorInfo) (acc : Bool × Bool) (addr : Nat) : Bool × Bool :=
  if addr == info.out_ep then (acc.1, true)
  else if addr == info.in_ep then (true, acc.2)
  else acc

/-- The endpoint scan: first interface, first alternate-setting
descriptor, then the loop over its endpoint addresses. -/
def scanEndpoints (info : AdaptorInfo) (ifaces : List (List (List Nat))) :
    Bool × Bool :=
  match ifaces.head? with
  | some iface =>
    match iface.head? with
    | some eps => eps.foldl (epFold info) (false, false)
    | none => (false, false)
  | none => (false, false)

/-! ## AdaptorHandle -/

/-- The driver-visible state of an `AdaptorHandle`: cached settings,
resolved info record, cached running flag. -/
structure HandleModel where
  settings : AdaptorSettings
  info : AdaptorInfo
  running : Bool
deriving DecidableEq, Repr

/-- `AdaptorHandle::new` (`adaptor.rs` lines 74-148) as a function of the
platform outcomes, returning the result and the bus-operation trace.
A failed `claim_interface` claims nothing; after a successful claim, a
local `rusb::DeviceHandle` (and, past construction of `temp`, the
`AdaptorHandle` `Drop` impl at lines 256-260) releases the claimed
interface when dropped on an early-return path — the `DeviceHandle`
auto-release is platform-library behaviour, modelled from the spec
(sections 3 and 5: release is guaranteed on every exit path).
Line 136 of the source shadows the `settings` argument with
`AdaptorSettings::default()`; the model reproduces that shadowing. -/
def new (settings : AdaptorSettings) (w : World) :
    Except AdaptorError HandleModel × List Op :=
  match locate w.devices with
  | .error e => (.error e, [])
  | .ok d =>
    match w.openResult with
    | .error e => (.error (.RusbError e), [])
    | .ok _ =>
      match w.config with
      | .error e => (.error (.RusbError e), [])
      | .ok ifaces =>
        match d.descriptor with
        | none => (.error (.RusbError .other), [])
        | some (_, pid) =>
          match VERSIONS.lookup pid with
          | none => (.error .ConnectionError, [])
          | some info =>
            match w.claimResult with
            | .error e => (.error (.RusbError e), [])
            | .ok _ =>
              let flags := scanEndpoints info ifaces
              if !flags.1 then (.error .NoEndpointError, [.claim, .release])
              else if !flags.2 then (.error .NoEndpointError, [.claim, .release])
              else
                let settings := AdaptorSettings.default
                let payload := serializeSettings settings
                match w.settingsWrite with
                | .error e =>
                  (.error (.RusbError e),
                    [.claim, .control UsbRequests.Settings payload, .release])
                | .ok _ =>
                  (.ok ⟨settings, info, false⟩,
                    [.claim, .control UsbRequests.Settings payload])

/-- `Drop for AdaptorHandle` (`adaptor.rs` lines 256-260):
`release_interface(0)`. -/
def dropHandleOps : List Op := [Op.release]

/-- `AdaptorHandle::write_frame` (`adaptor.rs` lines 163-170):
serialize with postcard, one bulk OUT transfer, byte count only logged. -/
def write_frame (info : AdaptorInfo) (f : CANFrame)
    (bulkResult : Except UsbErr Nat) : Except AdaptorError Unit × List Op :=
  let bytes := serializeFrame f
  match bulkResult with
  | .error e => (.error (.RusbError e), [.bulkOut info.out_ep bytes])
  | .ok _ => (.ok (), [.bulkOut info.out_ep bytes])

/-- Size of the stack buffer of `read_frame` (`let mut buffer = [0_u8; 256]`). -/
def BUF_SIZE : Nat := 256

/-- `AdaptorHandle::read_frame` (`adaptor.rs` lines 150-161): one bulk IN
transfer into a zero-initialized 256-byte buffer, then
`postcard::take_from_bytes` over the whole buffer. -/
def read_frame (recv : Except UsbErr (List Nat)) : Except AdaptorError CANFrame :=
  match recv with
  | .error e => .error (.RusbError e)
  | .ok bytes =>
    let buffer := (bytes ++ List.replicate BUF_SIZE 0).take BUF_SIZE
    match deserializeFrame buffer with
    | some (f, _) => .ok f
    | none => .error .SerdeError

/-- `AdaptorHandle::write_running` (`adaptor.rs` lines 203-216): sets
`self.running = running` first, then issues the `Run` control transfer. -/
def write_running (running0 : Bool) (arg : Bool)
    (transfer : Except UsbErr Nat) : Except AdaptorError Unit × Bool :=
  let running1 := arg
  match transfer with
  | .error e => (.error (.RusbError e), running1)
  | .ok _ => (.ok (), running1)

/-- `AdaptorHandle::start`: `write_running(true, timeout)`. -/
def start (running0 : Bool) (transfer : Except UsbErr Nat) :
    Except AdaptorError Unit × Bool :=
  write_running running0 true transfer

/-- `AdaptorHandle::stop`: `write_running(false, timeout)`. -/
def stop (running0 : Bool) (transfer : Except UsbErr Nat) :
    Except AdaptorError Unit × Bool :=
  write_running running0 false transfer

/-- The prototype bulk-command helper `AdaptorHandle::write`
(`adaptor-core/src/lib.rs` lines 108-121): asserts
`cmd.len() <= CMD_PACKET_SIZE`, zero-pads the command to the full
`CMD_PACKET_SIZE`, issues one bulk transfer, and errors (with
`SettingsError`, per the source's placeholder) whenever the platform
reports a byte count different from `CMD_PACKET_SIZE`.  Returns the
result together with the padded buffer handed to the platform. -/
def writeCmd (cmd : List Nat) (bulkResult : Except UsbErr Nat) :
    Except AdaptorError Unit × List Nat :=
  let padded := (cmd ++ List.replicate CMD_PACKET_SIZE 0).take CMD_PACKET_SIZE
  match bulkResult with
  | .error e => (.error (.RusbError e), padded)
  | .ok n =>
    if n ≠ CMD_PACKET_SIZE then (.error .SettingsError, padded)
    else (.ok (), padded)

/-! ## Wire-format lemmas -/

/-- The fuel of `varintEncodeAux` is irrelevant once it bounds the group
count. -/
lemma varintEncodeAux_irrel :
    ∀ (fuel fuel' n : Nat), n < 128 ^ (fuel + 1) → n < 128 ^ (fuel' + 1) →
      varintEncodeAux fuel n = varintEncodeAux fuel' n := by
  intro fuel
  induction fuel with
  | zero =>
    intro fuel' n h h'
    have hn : n < 128 := by norm_num at h; exact h
    cases fuel' with
    | zero => rfl
    | succ f => simp [varintEncodeAux, hn]
  | succ fuel ih =>
    intro fuel' n h h'
    by_cases hn : n < 128
    · cases fuel' with
      | zero => simp [varintEncodeAux, hn]
      | succ f => simp [varintEncodeAux, hn]
    · cases fuel' with
      | zero =>
        exact absurd (by norm_num at h'; exact h') hn
      | succ f =>
        have hdiv : n / 128 < 128 ^ (fuel + 1) := by
          have h128 : (0:Nat) < 128 := by norm_num
          rw [Nat.div_lt_iff_lt_mul h128]
          calc n < 128 ^ (fuel + 1 + 1) := h
            _ = 128 ^ (fuel + 1) * 128 := by ring
        have hdiv' : n / 128 < 128 ^ (f + 1) := by
          have h128 : (0:Nat) < 128 := by norm_num
          rw [Nat.div_lt_iff_lt_mul h128]
          calc n < 128 ^ (f + 1 + 1) := h'
            _ = 128 ^ (f + 1) * 128 := by ring
        simp only [varintEncodeAux, if_neg hn]
        rw [ih f (n / 128) hdiv hdiv']

/-- Every `n` bounds its own group count. -/
lemma self_fuel_bound (n : Nat) : n < 128 ^ (n + 1) := by
  calc n < 2 ^ n := Nat.lt_two_pow n
    _ ≤ 128 ^ n := Nat.pow_le_pow_left (by norm_num) n
    _ ≤ 128 ^ (n + 1) := Nat.pow_le_pow_right (by norm_num) (by omega)

/-- `varintEncode` agrees with the fuelled form at any sufficient fuel. -/
lemma varintEncode_eq_aux (k n : Nat) (h : n < 128 ^ (k + 1)) :
    varintEncode n = varintEncodeAux k n :=
  varintEncodeAux_irrel n k n (self_fuel_bound n) h

/-- Varint round trip: a value below `128 ^ (k + 1)` encodes into at most
`k + 1` groups, so decoding with fuel `k + 1` recovers it and the tail. -/
lemma varintDecode_encode :
    ∀ (k n : Nat) (rest : List Nat), n < 128 ^ (k + 1) →
      varintDecode (k + 1) (varintEncode n ++ rest) = some (n, rest) := by
  intro k
  induction k with
  | zero =>
    intro n rest h
    have hn : n < 128 := by norm_num at h; exact h
    rw [varintEncode_eq_aux 0 n h]
    simp [varintEncodeAux, varintDecode, hn]
  | succ k ih =>
    intro n rest h
    rw [varintEncode_eq_aux (k + 1) n h]
    by_cases hn : n < 128
    · simp [varintEncodeAux, varintDecode, hn]
    · have hdiv : n / 128 < 128 ^ (k + 1) := by
        have h128 : (0:Nat) < 128 := by norm_num
        rw [Nat.div_lt_iff_lt_mul h128]
        calc n < 128 ^ (k + 1 + 1) := h
          _ = 128 ^ (k + 1) * 128 := by ring
      have hrec := ih (n / 128) rest hdiv
      rw [varintEncode_eq_aux k (n / 128) hdiv] at hrec
      have hb : ¬ (n % 128 + 128 < 128) := by omega
      simp only [varintEncodeAux, if_neg hn, List.cons_append, varintDecode,
        if_neg hb, List.append_eq, hrec, Option.some.injEq, Prod.mk.injEq]
      exact ⟨by omega, trivial⟩

/-- Length bound matching `varintDecode_encode`. -/
lemma varintEncode_length :
    ∀ (k n : Nat), n < 128 ^ (k + 1) → (varintEncode n).length ≤ k + 1 := by
  have aux : ∀ (k n : Nat), n < 128 ^ (k + 1) →
      (varintEncodeAux k n).length ≤ k + 1 := by
    intro k
    induction k with
    | zero => intro n h; simp [varintEncodeAux]
    | succ k ih =>
      intro n h
      by_cases hn : n < 128
      · simp [varintEncodeAux, hn]
      · have hdiv : n / 128 < 128 ^ (k + 1) := by
          have h128 : (0:Nat) < 128 := by norm_num
          rw [Nat.div_lt_iff_lt_mul h128]
          calc n < 128 ^ (k + 1 + 1) := h
            _ = 128 ^ (k + 1) * 128 := by ring
        have := ih (n / 128) hdiv
        simp only [varintEncodeAux, if_neg hn, List.length_cons]
        omega
  intro k n h
  rw [varintEncode_eq_aux k n h]
  exact aux k n h

/-- `takeN` undoes appending a run of the requested length. -/
lemma takeN_append :
    ∀ (xs rest : List Nat), takeN xs.length (xs ++ rest) = some (xs, rest) := by
  intro xs
  induction xs with
  | nil => intro rest; simp [takeN]
  | cons b xs ih => intro rest; simp [takeN, ih rest]

/-- `takeBool` undoes `boolByte`. -/
lemma takeBool_boolByte (b : Bool) (rest : List Nat) :
    takeBool (boolByte b :: rest) = some (b, rest) := by
  cases b <;> simp [takeBool, boolByte]

/-- Frame round trip with an arbitrary tail: decoding a serialized frame
consumes exactly its encoding and returns the frame. -/
lemma deserializeFrame_serializeFrame (f : CANFrame) (rest : List Nat)
    (hid : f.id < 2 ^ 32) (hdata : f.data.length = 8) :
    deserializeFrame (serializeFrame f ++ rest) = some (f, rest) := by
  have hid5 : f.id < 128 ^ (4 + 1) := lt_of_lt_of_le hid (by norm_num)
  have htail := takeN_append f.data
    (boolByte f.is_rtr :: boolByte f.is_err :: boolByte f.is_ext :: rest)
  rw [hdata] at htail
  simp only [serializeFrame, deserializeFrame, List.append_assoc, List.cons_append,
    List.nil_append]
  rw [show (5 : Nat) = 4 + 1 from rfl, varintDecode_encode 4 f.id _ hid5]
  simp only [Option.bind_eq_bind, Option.some_bind, takeByte]
  rw [htail]
  simp only [Option.some_bind, takeBool_boolByte]

/-- The encoded length of a frame with a 32-bit id and 8 data bytes is at
most 17 bytes, far below the 256-byte receive buffer. -/
lemma serializeFrame_length_le (f : CANFrame)
    (hid : f.id < 2 ^ 32) (hdata : f.data.length = 8) :
    (serializeFrame f).length ≤ 17 := by
  have hid5 : f.id < 128 ^ (4 + 1) := lt_of_lt_of_le hid (by norm_num)
  have := varintEncode_length 4 f.id hid5
  simp [serializeFrame, hdata]
  omega

/-- `read_frame` on a buffer that begins with a serialized frame decodes
that frame: the zero padding of the 256-byte buffer is left as the
unconsumed tail. -/
lemma read_frame_serialized (f : CANFrame)
    (hid : f.id < 2 ^ 32) (hdata : f.data.length = 8) :
    read_frame (.ok (serializeFrame f)) = .ok f := by
  have hlen : (serializeFrame f).length ≤ 17 := serializeFrame_length_le f hid hdata
  have hbuf : (serializeFrame f ++ List.replicate BUF_SIZE 0).take BUF_SIZE =
      serializeFrame f ++ List.replicate (BUF_SIZE - (serializeFrame f).length) 0 := by
    rw [List.take_append_eq_append_take, List.take_of_length_le (by unfold BUF_SIZE; omega),
      List.take_replicate]
    congr 1
    congr 1
    unfold BUF_SIZE
    omega
  simp only [read_frame, hbuf,
    deserializeFrame_serializeFrame f _ hid hdata]

/-! ## Locator and endpoint-scan lemmas -/

/-- The `filter`-then-`find_map` pipeline selects exactly the first
qualifying device: the re-check of the vendor id inside `find_map` is
subsumed by the filter. -/
lemma filter_findSome_eq_find :
    ∀ l : List Device,
      (l.filter deviceQualifies).findSome? findMapStep = l.find? deviceQualifies := by
  intro l
  induction l with
  | nil => rfl
  | cons d l ih =>
    by_cases hq : deviceQualifies d
    · rw [List.filter_cons_of_pos hq, List.find?_cons_of_pos _ hq]
      have hstep : findMapStep d = some d := by
        cases hd : d.descriptor with
        | none =>
          unfold deviceQualifies at hq
          rw [hd] at hq; simp [descQualifies] at hq
        | some vp =>
          obtain ⟨vid, pid⟩ := vp
          unfold deviceQualifies at hq
          rw [hd] at hq
          simp only [descQualifies, Bool.and_eq_true] at hq
          simp [findMapStep, hd, hq.1]
      rw [List.findSome?_cons, hstep]
    · rw [List.filter_cons_of_neg (by simpa using hq),
        List.find?_cons_of_neg _ (by simpa using hq)]
      exact ih

/-- A device selected by `locate` satisfies the qualification predicate. -/
lemma locate_ok_qualifies {devices : List Device} {d : Device}
    (h : locate devices = .ok d) : deviceQualifies d = true := by
  unfold locate at h
  rw [filter_findSome_eq_find] at h
  cases hf : devices.find? deviceQualifies with
  | none => rw [hf] at h; exact absurd h (by simp)
  | some d0 =>
    rw [hf] at h
    have hd0 : d0 = d := by simpa using h
    subst hd0
    exact List.find?_some hf

/-- A qualifying descriptor is exactly `(0x69, 0x69)`: the vendor id is
forced by the filter and the product id by the single registry key. -/
lemma qualifies_descriptor {d : Device}
    (h : deviceQualifies d = true) :
    d.descriptor = some (0x69, 0x69) := by
  unfold deviceQualifies at h
  cases hd : d.descriptor with
  | none => rw [hd] at h; simp [descQualifies] at h
  | some vp =>
    obtain ⟨vid, pid⟩ := vp
    rw [hd] at h
    simp only [descQualifies, Bool.and_eq_true, beq_iff_eq] at h
    obtain ⟨hvid, hpid⟩ := h
    have hpid69 : pid = 0x69 := by
      by_contra hne
      have hbeq : (pid == 105) = false := by simpa using hne
      simp [VERSIONS, List.lookup, hbeq] at hpid
    subst hpid69
    subst hvid
    rfl

/-- The endpoint loop computes membership: starting from accumulator
`acc`, the final `(has_in_ep, has_out_ep)` flags are the accumulator
or-ed with the presence of the respective addresses (for distinct IN and
OUT addresses, as in every registry entry). -/
lemma foldl_epFold (info : AdaptorInfo) (hne : info.in_ep ≠ info.out_ep) :
    ∀ (eps : List Nat) (acc : Bool × Bool),
      eps.foldl (epFold info) acc =
        (acc.1 || decide (info.in_ep ∈ eps), acc.2 || decide (info.out_ep ∈ eps)) := by
  intro eps
  induction eps with
  | nil => intro acc; simp
  | cons a eps ih =>
    intro acc
    rw [List.foldl_cons, ih (epFold info acc a)]
    by_cases h1 : a = info.out_ep
    · subst h1
      simp [epFold, List.mem_cons, hne]
    · by_cases h2 : a = info.in_ep
      · subst h2
        have hne' : info.out_ep ≠ info.in_ep := Ne.symm hne
        simp [epFold, List.mem_cons, h1, hne']
      · have h1' : info.out_ep ≠ a := Ne.symm h1
        have h2' : info.in_ep ≠ a := Ne.symm h2
        simp [epFold, List.mem_cons, h1, h2, h1', h2']

/-- Concrete devices used to instantiate the theorems. -/
def goodDevice : Device := ⟨some (0x69, 0x69)⟩

/-- A device whose vendor id differs from the constant but whose product
id is a registry key. -/
def badVidDevice : Device := ⟨some (0x70, 0x69)⟩

/-- A device whose descriptor read fails. -/
def failDevice : Device := ⟨none⟩

/-- The spec's section 8 sample frame. -/
def sampleFrame : CANFrame :=
  ⟨0x123, 3, [1, 2, 3, 0, 0, 0, 0, 0], false, false, false⟩

/-- `new` on a world where the platform calls succeed and the first
interface's first alternate setting lists endpoints `eps`: the outcome is
decided entirely by the presence of the registry IN and OUT addresses. -/
lemma new_good_world (s : AdaptorSettings) (devs : List Device) (d : Device)
    (eps : List Nat) (ds : List (List Nat)) (is : List (List (List Nat)))
    (n : Nat) (hloc : locate devs = .ok d) :
    new s ⟨devs, .ok (), .ok ((eps :: ds) :: is), .ok (), .ok n⟩ =
      (if 1 ∈ eps ∧ 0x81 ∈ eps then
        (.ok ⟨AdaptorSettings.default, infoV1, false⟩,
          [Op.claim, Op.control UsbRequests.Settings
            (serializeSettings AdaptorSettings.default)])
      else (.error .NoEndpointError, [Op.claim, Op.release])) := by
  have hd := qualifies_descriptor (locate_ok_qualifies hloc)
  have hscan : scanEndpoints infoV1 ((eps :: ds) :: is) =
      (decide (1 ∈ eps), decide (0x81 ∈ eps)) := by
    unfold scanEndpoints
    simp only [List.head?_cons]
    rw [foldl_epFold infoV1 (by decide)]
    simp [infoV1]
  by_cases hin : 1 ∈ eps <;> by_cases hout : (0x81 : Nat) ∈ eps <;>
    simp [new, hloc, hd, VERSIONS, List.lookup, hscan, hin, hout]

/-! ## Claim theorems -/

/-- Claim C3 counterexample: a concrete frame whose encoding is 14 bytes
long, with the platform reporting 0 bytes written, still makes
`write_frame` return `Ok` — the short write is not reported. -/
theorem write_frame_short_write_cex :
    (write_frame infoV1 sampleFrame (.ok 0)).1 = .ok () ∧
    0 < (serializeFrame sampleFrame).length := by decide

/-- Claim C3 (amended): `write_frame` propagates a platform error, but
performs no byte-count check: whenever the platform write itself
succeeds, even reporting fewer bytes than the encoded frame length,
`write_frame` returns `Ok` (the count is only logged). -/
theorem write_frame_ignores_byte_count (f : CANFrame) (n : Nat) (e : UsbErr)
    (hshort : n < (serializeFrame f).length) :
    (write_frame infoV1 f (.ok n)).1 = .ok () ∧
    (write_frame infoV1 f (.error e)).1 = .error (.RusbError e) :=
  ⟨rfl, rfl⟩

/-- Witness for `write_frame_ignores_byte_count` at the sample frame and a
zero-byte report. -/
theorem write_frame_ignores_byte_count_witness :
    0 < (serializeFrame sampleFrame).length ∧
    ((write_frame infoV1 sampleFrame (.ok 0)).1 = .ok () ∧
     (write_frame infoV1 sampleFrame (.error .timeout)).1 =
       .error (.RusbError .timeout)) :=
  ⟨by decide, write_frame_ignores_byte_count sampleFrame 0 .timeout (by decide)⟩

/-- Claim C4 counterexample: `start` with a failing control transfer
returns an error yet leaves the cached `running` flag `true`, though it
was `false` before the call. -/
theorem start_flag_on_failed_transfer_cex :
    (start false (.error .timeout)).1 = .error (.RusbError .timeout) ∧
    (start false (.error .timeout)).2 = true := by decide

/-- Claim C4 (amended): `write_running` (hence `start`/`stop`) sets the
cached `running` flag to the requested value before issuing the `Run`
control transfer, so the flag holds the requested value whether or not
the transfer succeeds; the returned result alone reflects the transfer
outcome. -/
theorem write_running_presets_flag (r0 arg : Bool) (t : Except UsbErr Nat) :
    (write_running r0 arg t).2 = arg ∧
    (start r0 t).2 = true ∧
    (stop r0 t).2 = false ∧
    (write_running r0 arg t).1 =
      (match t with
        | .ok _ => .ok ()
        | .error e => .error (.RusbError e)) := by
  cases t <;> exact ⟨rfl, rfl, rfl, rfl⟩

/-- A well-formed encoding that declares `dlc = 9`. -/
def frameDlc9 : CANFrame := ⟨0, 9, [0, 0, 0, 0, 0, 0, 0, 0], false, false, false⟩

/-- Claim C5 counterexample: `read_frame` on a well-formed 13-byte buffer
declaring `dlc = 9` returns `Ok` with that frame instead of a
serialization error. -/
theorem read_frame_accepts_dlc9_cex :
    read_frame (.ok [0, 9, 0, 0, 0, 0, 0, 0, 0, 0, 0, 0, 0]) = .ok frameDlc9 ∧
    frameDlc9.dlc > 8 := by decide

/-- Claim C5 (amended): `read_frame` rejects only malformed encodings; it
applies no `dlc` bound, returning `Ok` for every well-formed frame
encoding with any `dlc` representable in a `u8`, including values above
8. -/
theorem read_frame_no_dlc_bound (f : CANFrame) (hid : f.id < 2 ^ 32)
    (_hdlc : f.dlc < 256) (hdata : f.data.length = 8) :
    read_frame (.ok (serializeFrame f)) = .ok f :=
  read_frame_serialized f hid hdata

/-- A frame declaring `dlc = 200`. -/
def frameDlc200 : CANFrame := ⟨5, 200, [9, 8, 7, 6, 5, 4, 3, 2], true, false, true⟩

/-- Witness for `read_frame_no_dlc_bound` at `dlc = 200`. -/
theorem read_frame_no_dlc_bound_witness :
    (frameDlc200.id < 2 ^ 32 ∧ frameDlc200.dlc < 256 ∧
      frameDlc200.data.length = 8) ∧
    read_frame (.ok (serializeFrame frameDlc200)) = .ok frameDlc200 :=
  ⟨by decide,
    read_frame_no_dlc_bound frameDlc200 (by decide) (by decide) (by decide)⟩

/-- Claim C9: encoding a valid frame with the wire format `write_frame`
uses — the single bulk payload it emits is exactly `serializeFrame f` —
and decoding those bytes with the decoder `read_frame` uses yields the
original frame. -/
theorem frame_roundtrip (f : CANFrame) (r : Except UsbErr Nat) (h : f.valid) :
    (write_frame infoV1 f r).2 = [Op.bulkOut infoV1.out_ep (serializeFrame f)] ∧
    read_frame (.ok (serializeFrame f)) = .ok f := by
  obtain ⟨hid, _, hdata, _⟩ := h
  refine ⟨?_, read_frame_serialized f hid hdata⟩
  cases r <;> rfl

/-- Witness for `frame_roundtrip` at the spec's section 8 sample frame. -/
theorem frame_roundtrip_witness :
    sampleFrame.valid ∧
    ((write_frame infoV1 sampleFrame (.ok 14)).2 =
      [Op.bulkOut infoV1.out_ep (serializeFrame sampleFrame)] ∧
     read_frame (.ok (serializeFrame sampleFrame)) = .ok sampleFrame) :=
  ⟨by decide, frame_roundtrip sampleFrame (.ok 14) (by decide)⟩

/-- Claim C2 counterexample: a frame write is issued as a single bulk
transfer holding exactly the 14-byte serialized frame — no 16-byte
command header precedes it on the bulk channel. -/
theorem write_frame_no_header_cex :
    (write_frame infoV1 sampleFrame (.ok 14)).2 =
      [Op.bulkOut infoV1.out_ep (serializeFrame sampleFrame)] ∧
    (serializeFrame sampleFrame).length = 14 ∧
    CMD_PACKET_SIZE = 16 := by decide

/-- Claim C2 (amended): the prototype bulk-command helper `write` pads
every command to the fixed 16-byte width with zero fill and returns an
error (the source's placeholder `SettingsError`), without retrying,
whenever the platform reports a byte count different from the width;
frame writes do not use this helper — `write_frame` issues the bare
serialized frame as its only bulk transfer, with no preceding header. -/
theorem write_cmd_padding (cmd : List Nat) (n : Nat) (f : CANFrame)
    (r : Except UsbErr Nat) (hlen : cmd.length ≤ CMD_PACKET_SIZE)
    (hshort : n ≠ CMD_PACKET_SIZE) :
    (writeCmd cmd (.ok n)).2 =
      cmd ++ List.replicate (CMD_PACKET_SIZE - cmd.length) 0 ∧
    (writeCmd cmd (.ok n)).2.length = CMD_PACKET_SIZE ∧
    (writeCmd cmd (.ok n)).1 = .error .SettingsError ∧
    (write_frame infoV1 f r).2 = [Op.bulkOut infoV1.out_ep (serializeFrame f)] := by
  have hpad : (cmd ++ List.replicate CMD_PACKET_SIZE 0).take CMD_PACKET_SIZE =
      cmd ++ List.replicate (CMD_PACKET_SIZE - cmd.length) 0 := by
    rw [List.take_append_eq_append_take, List.take_of_length_le hlen,
      List.take_replicate]
    congr 1
    congr 1
    omega
  refine ⟨?_, ?_, ?_, ?_⟩
  · simp only [writeCmd, hpad]
    split <;> rfl
  · simp only [writeCmd, hpad]
    split <;>
      simp [List.length_append, List.length_replicate, Nat.add_sub_cancel' hlen]
  · simp [writeCmd, hshort]
  · cases r <;> rfl

/-- Witness for `write_cmd_padding`: a 2-byte command padded to 16, the
platform reporting 14 bytes. -/
theorem write_cmd_padding_witness :
    (([3, 1] : List Nat).length ≤ CMD_PACKET_SIZE ∧ 14 ≠ CMD_PACKET_SIZE) ∧
    ((writeCmd [3, 1] (.ok 14)).2 =
      [3, 1] ++ List.replicate (CMD_PACKET_SIZE - ([3, 1] : List Nat).length) 0 ∧
     (writeCmd [3, 1] (.ok 14)).2.length = CMD_PACKET_SIZE ∧
     (writeCmd [3, 1] (.ok 14)).1 = .error .SettingsError ∧
     (write_frame infoV1 sampleFrame (.ok 14)).2 =
       [Op.bulkOut infoV1.out_ep (serializeFrame sampleFrame)]) :=
  ⟨⟨by decide, by decide⟩,
    write_cmd_padding [3, 1] 14 sampleFrame (.ok 14) (by decide) (by decide)⟩

/-- The settings value used as failing input for claim C1: distinct from
the default in every field. -/
def settingsS0 : AdaptorSettings :=
  { rx_mask := 1, leds := false, can_id := 2, can_config := 3 }

/-- A world in which every platform call succeeds and both required
endpoints are present. -/
def goodWorld : World :=
  ⟨[goodDevice], .ok (), .ok [[[0x1, 0x81]]], .ok (), .ok 4⟩

/-- Claim C1 (code bug, evaluated at the failing input): `new` called
with a non-default settings value succeeds but pushes the serialized
default settings — line 136 shadows the argument — caches the default in
the handle, and never sends the caller's settings. -/
theorem new_pushes_default_not_argument :
    (new settingsS0 goodWorld).1 =
      .ok ⟨AdaptorSettings.default, infoV1, false⟩ ∧
    (new settingsS0 goodWorld).2 =
      [Op.claim, Op.control UsbRequests.Settings
        (serializeSettings AdaptorSettings.default)] ∧
    serializeSettings AdaptorSettings.default ≠ serializeSettings settingsS0 ∧
    Op.control UsbRequests.Settings (serializeSettings settingsS0) ∉
      (new settingsS0 goodWorld).2 := by decide

/-- Claim C6: whenever `new` returns an error, every claim of the
interface in its operation trace is matched by a release (and a trace
that claimed at all ends with the release); a handle that is returned
alive holds the claim until its `Drop` impl releases it. -/
theorem new_releases_claim_on_error (s : AdaptorSettings) (w : World)
    (h : exceptIsOk (new s w).1 = false) :
    (new s w).2.count Op.release = (new s w).2.count Op.claim ∧
    (Op.claim ∈ (new s w).2 → (new s w).2.getLast? = some Op.release) ∧
    dropHandleOps = [Op.release] := by
  obtain ⟨devs, openR, cfg, claimR, sw⟩ := w
  cases hL : locate devs with
  | error e => simp [new, hL, dropHandleOps]
  | ok d =>
    cases openR with
    | error e => simp [new, hL, dropHandleOps]
    | ok u =>
      cases cfg with
      | error e => simp [new, hL, dropHandleOps]
      | ok ifaces =>
        cases hd : d.descriptor with
        | none => simp [new, hL, hd, dropHandleOps]
        | some vp =>
          obtain ⟨vid, pid⟩ := vp
          cases hV : VERSIONS.lookup pid with
          | none => simp [new, hL, hd, hV, dropHandleOps]
          | some info =>
            cases claimR with
            | error e => simp [new, hL, hd, hV, dropHandleOps]
            | ok u2 =>
              cases hf1 : (scanEndpoints info ifaces).1 with
              | false =>
                simp [new, hL, hd, hV, hf1, dropHandleOps]
              | true =>
                cases hf2 : (scanEndpoints info ifaces).2 with
                | false =>
                  simp [new, hL, hd, hV, hf1, hf2, dropHandleOps]
                | true =>
                  cases sw with
                  | error e =>
                    simp [new, hL, hd, hV, hf1, hf2, dropHandleOps]
                  | ok n =>
                    rw [show new s ⟨devs, .ok u, .ok ifaces, .ok u2, .ok n⟩ =
                      (.ok ⟨AdaptorSettings.default, info, false⟩,
                        [Op.claim, Op.control UsbRequests.Settings
                          (serializeSettings AdaptorSettings.default)]) from by
                        simp [new, hL, hd, hV, hf1, hf2]] at h
                    simp [exceptIsOk] at h

/-- A world where every platform call succeeds but the OUT endpoint is
missing from the descriptor. -/
def noEpWorld : World := ⟨[goodDevice], .ok (), .ok [[[0x1]]], .ok (), .ok 4⟩

/-- Witness for `new_releases_claim_on_error`: the missing-endpoint
world errors after the claim, and the trace is claim-then-release. -/
theorem new_releases_claim_on_error_witness :
    exceptIsOk (new AdaptorSettings.default noEpWorld).1 = false ∧
    ((new AdaptorSettings.default noEpWorld).2.count Op.release =
      (new AdaptorSettings.default noEpWorld).2.count Op.claim ∧
     (Op.claim ∈ (new AdaptorSettings.default noEpWorld).2 →
       (new AdaptorSettings.default noEpWorld).2.getLast? = some Op.release) ∧
     dropHandleOps = [Op.release]) :=
  ⟨by decide, new_releases_claim_on_error AdaptorSettings.default noEpWorld (by decide)⟩

/-- Claim C7: the locator pipeline returns exactly the first enumerated
device whose descriptor reads successfully with the fixed vendor id and a
registry product id (`NoDeviceError` when there is none), and prepending
any non-qualifying device — unreadable descriptor, wrong vendor id even
with a registry product id — never changes the selection. -/
theorem locate_selects_first_qualifying (devices : List Device) (d0 : Device)
    (h : deviceQualifies d0 = false) :
    locate devices = locateSpec devices ∧
    locate (d0 :: devices) = locate devices := by
  constructor
  · unfold locate locateSpec
    rw [filter_findSome_eq_find]
  · unfold locate
    rw [List.filter_cons_of_neg (by simpa using h)]

/-- Witness for `locate_selects_first_qualifying`: a wrong-vendor device
with a registry product id is skipped ahead of a failed-descriptor device
and the qualifying one. -/
theorem locate_selects_first_qualifying_witness :
    deviceQualifies badVidDevice = false ∧
    (locate [failDevice, goodDevice] = locateSpec [failDevice, goodDevice] ∧
     locate (badVidDevice :: [failDevice, goodDevice]) =
       locate [failDevice, goodDevice]) :=
  ⟨by decide,
    locate_selects_first_qualifying [failDevice, goodDevice] badVidDevice (by decide)⟩

/-- Claim C8: with every platform call succeeding, `new` fails with
`NoEndpointError` whenever either required endpoint address is missing
from the first interface's first alternate-setting descriptor — all
combinations of missing IN/OUT — and returns a handle exactly when both
are present. -/
theorem new_endpoint_validation (s : AdaptorSettings) (devs : List Device)
    (d : Device) (eps : List Nat) (ds : List (List Nat))
    (is : List (List (List Nat))) (n : Nat)
    (hloc : locate devs = .ok d) :
    (¬ ((1 : Nat) ∈ eps ∧ (0x81 : Nat) ∈ eps) →
      (new s ⟨devs, .ok (), .ok ((eps :: ds) :: is), .ok (), .ok n⟩).1 =
        .error .NoEndpointError) ∧
    (((1 : Nat) ∈ eps ∧ (0x81 : Nat) ∈ eps) →
      (new s ⟨devs, .ok (), .ok ((eps :: ds) :: is), .ok (), .ok n⟩).1 =
        .ok ⟨AdaptorSettings.default, infoV1, false⟩) := by
  rw [new_good_world s devs d eps ds is n hloc]
  constructor
  · intro hmiss
    rw [if_neg hmiss]
  · intro hboth
    rw [if_pos hboth]

/-- Witness for `new_endpoint_validation`: the OUT address missing. -/
theorem new_endpoint_validation_witness :
    locate [goodDevice] = .ok goodDevice ∧
    ((¬ ((1 : Nat) ∈ [(1 : Nat)] ∧ (0x81 : Nat) ∈ [(1 : Nat)]) →
      (new AdaptorSettings.default
        ⟨[goodDevice], .ok (), .ok (([(1 : Nat)] :: []) :: []), .ok (), .ok 4⟩).1 =
        .error .NoEndpointError) ∧
     (((1 : Nat) ∈ [(1 : Nat)] ∧ (0x81 : Nat) ∈ [(1 : Nat)]) →
      (new AdaptorSettings.default
        ⟨[goodDevice], .ok (), .ok (([(1 : Nat)] :: []) :: []), .ok (), .ok 4⟩).1 =
        .ok ⟨AdaptorSettings.default, infoV1, false⟩)) :=
  ⟨by decide,
    new_endpoint_validation AdaptorSettings.default [goodDevice] goodDevice
      [1] [] [] 4 (by decide)⟩

/-- Claim C10: endpoint validation never examines the SWO address —
removing every endpoint equal to the registry SWO address from the
descriptor leaves the outcome of `new` unchanged, so a missing SWO
endpoint alone can never cause `NoEndpointError`. -/
theorem endpoint_validation_ignores_swo (s : AdaptorSettings)
    (devs : List Device) (d : Device) (eps : List Nat) (ds : List (List Nat))
    (is : List (List (List Nat))) (n : Nat)
    (hloc : locate devs = .ok d) :
    (new s ⟨devs, .ok (), .ok ((eps :: ds) :: is), .ok (), .ok n⟩).1 =
    (new s ⟨devs, .ok (),
      .ok (((eps.filter fun a => a != infoV1.swo_ep) :: ds) :: is),
      .ok (), .ok n⟩).1 := by
  rw [new_good_world s devs d eps ds is n hloc,
    new_good_world s devs d (eps.filter fun a => a != infoV1.swo_ep) ds is n hloc]
  have h1 : ((1 : Nat) ∈ eps.filter fun a => a != infoV1.swo_ep) ↔ (1 : Nat) ∈ eps := by
    simp [List.mem_filter, infoV1]
  have h2 : ((0x81 : Nat) ∈ eps.filter fun a => a != infoV1.swo_ep) ↔ (0x81 : Nat) ∈ eps := by
    simp [List.mem_filter, infoV1]
  by_cases hin : (1 : Nat) ∈ eps <;> by_cases hout : (0x81 : Nat) ∈ eps <;>
    simp [h1, h2, hin, hout]

/-- Witness for `endpoint_validation_ignores_swo`: a descriptor listing
IN, OUT and SWO; dropping the SWO endpoint leaves the outcome equal. -/
theorem endpoint_validation_ignores_swo_witness :
    locate [goodDevice] = .ok goodDevice ∧
    (new AdaptorSettings.default
      ⟨[goodDevice], .ok (), .ok (([(1 : Nat), 0x81, 0x82] :: []) :: []),
        .ok (), .ok 4⟩).1 =
    (new AdaptorSettings.default
      ⟨[goodDevice], .ok (),
        .ok ((([(1 : Nat), 0x81, 0x82].filter fun a => a != infoV1.swo_ep) :: []) :: []),
        .ok (), .ok 4⟩).1 :=
  ⟨by decide,
    endpoint_validation_ignores_swo AdaptorSettings.default [goodDevice]
      goodDevice [1, 0x81, 0x82] [] [] 4 (by decide)⟩

end CanProbe
